import Mathlib

/-!
Shallow embedding of the not-found-error Rust crate (src/lib.rs).

The crate defines a zero-sized, type-tagged error value NotFoundError<T>
together with conversion helpers from Option<T> to Result<T, NotFoundError<_>>.
Every operation in the crate is a pure, total function, so the embedding is a
direct transcription of each Rust function body into a Lean definition.

Compile-time reflection (std::any::type_name::<T>() in the Display impl) has no
shallow embedding; the type name is passed as an explicit String parameter.
-/

universe u v

/-- Model of std::marker::PhantomData<T>: a zero-sized marker type with a
single value. -/
structure PhantomData (T : Type u) : Type where
  mk ::

/-- Model of pub struct NotFoundError<T>(pub PhantomData<T>) from src/lib.rs
line 70: a tuple struct whose only field is the zero-sized marker. -/
structure NotFoundError (T : Type u) : Type where
  mk :: (phantom : PhantomData T)

/-- Model of Rust Result<T, E> with its two constructors Ok and Err. -/
inductive Result (T : Type u) (E : Type v) : Type (max u v)
  | ok (value : T)
  | err (error : E)

/-- Model of Option::ok_or from the Rust standard library: Some(v) maps to
Ok(v), None maps to Err(e). -/
def Option.ok_or {T : Type u} {E : Type v} (self : Option T) (e : E) : Result T E :=
  match self with
  | some v => Result.ok v
  | none => Result.err e

/-- Model of NotFoundError::new (src/lib.rs lines 82-84): Self(PhantomData). -/
def NotFoundError.new {T : Type u} : NotFoundError T :=
  NotFoundError.mk PhantomData.mk

/-- Model of NotFoundError::result (src/lib.rs lines 96-98). The Rust bound
Err: From<Self> is modelled by passing the conversion function explicitly;
the body is Err(Self::new().into()). -/
def NotFoundError.result {T : Type u} {ErrOut : Type v} (from_fn : NotFoundError T → ErrOut) : Result T ErrOut :=
  Result.err (from_fn NotFoundError.new)

/-- Model of the Default impl for NotFoundError<T> (src/lib.rs lines 101-105):
it delegates to Self::new(). -/
def NotFoundError.default {T : Type u} : NotFoundError T :=
  NotFoundError.new

/-- Model of the Display impl for NotFoundError<T> (src/lib.rs lines 107-111):
write(f, "\x7b\x7d not found", type_name::<T>()). The compile-time reflection
call type_name::<T>() is modelled by the explicit parameter type_name_T. -/
def NotFoundError.display {T : Type u} (type_name_T : String) (_self : NotFoundError T) : String :=
  type_name_T ++ " not found"

/-- Model of the Ord impl of PhantomData<T> in the Rust standard library:
cmp always returns Ordering::Equal, since PhantomData carries no data. -/
def PhantomData.cmp {T : Type u} (_self _other : PhantomData T) : Ordering :=
  Ordering.eq

/-- Model of the derived Ord impl of NotFoundError<T> (derive on src/lib.rs
line 69): lexicographic comparison of the fields, here the single PhantomData
field. -/
def NotFoundError.cmp {T : Type u} (self other : NotFoundError T) : Ordering :=
  PhantomData.cmp self.phantom other.phantom

/-- Model of the Hash impl of PhantomData<T> in the Rust standard library:
it writes nothing into the hasher, so the hasher state is returned unchanged. -/
def PhantomData.hashInto {T : Type u} (state : Nat) (_self : PhantomData T) : Nat :=
  state

/-- Model of the derived Hash impl of NotFoundError<T> (derive on src/lib.rs
line 69): each field is fed to the hasher in order, here the single
PhantomData field. -/
def NotFoundError.hashInto {T : Type u} (state : Nat) (self : NotFoundError T) : Nat :=
  PhantomData.hashInto state self.phantom

/-- Model of pub fn require (src/lib.rs lines 129-132):
option.ok_or(NotFoundError(PhantomData)). -/
def require {T : Type u} (option : Option T) : Result T (NotFoundError T) :=
  option.ok_or (NotFoundError.mk PhantomData.mk)

/-- Model of pub fn not_found (src/lib.rs lines 154-157):
NotFoundError(PhantomData) at an arbitrary type tag. -/
def not_found (AnotherType : Type u) : NotFoundError AnotherType :=
  NotFoundError.mk PhantomData.mk

/-- Model of the Require trait impl for Option<T> (src/lib.rs lines 179-186):
the method body is self.ok_or(NotFoundError(PhantomData)). -/
def Option.require {T : Type u} (self : Option T) : Result T (NotFoundError T) :=
  self.ok_or (NotFoundError.mk PhantomData.mk)

/-- Model of the OkOrNotFound trait impl for Option<T> (src/lib.rs lines
214-221): the method body is self.ok_or(NotFoundError(PhantomData)) at the
caller-chosen error tag B. -/
def Option.ok_or_not_found {T : Type u} (B : Type v) (self : Option T) : Result T (NotFoundError B) :=
  self.ok_or (NotFoundError.mk PhantomData.mk)

/-- Model of Iterator::find from the Rust standard library over a list
iterator: returns the first element satisfying the predicate, or None. -/
def findInIter {T : Type u} (f : T → Bool) : List T → Option T
  | [] => none
  | x :: xs => if f x then some x else findInIter f xs

/-- Model of pub fn locate (src/lib.rs lines 242-244):
require(iter.into_iter().find(f)), with the iterator modelled as a list. -/
def locate {T : Type u} (iter : List T) (f : T → Bool) : Result T (NotFoundError T) :=
  require (findInIter f iter)

/- Helper lemmas for the behaviour of the modelled Iterator::find. -/

theorem findInIter_first_match {T : Type u} (f : T → Bool) (l₁ l₂ : List T) (v : T)
    (hv : f v = true) (hl : ∀ x ∈ l₁, f x = false) :
    findInIter f (l₁ ++ v :: l₂) = some v := by
  induction l₁ with
  | nil => simp [findInIter, hv]
  | cons x xs ih =>
    have hx : f x = false := hl x (List.mem_cons_self x xs)
    simp only [List.cons_append, findInIter, hx, if_neg Bool.false_ne_true]
    exact ih fun y hy => hl y (List.mem_cons_of_mem x hy)

theorem findInIter_no_match {T : Type u} (f : T → Bool) (l : List T)
    (hl : ∀ x ∈ l, f x = false) :
    findInIter f l = none := by
  induction l with
  | nil => rfl
  | cons x xs ih =>
    have hx : f x = false := hl x (List.mem_cons_self x xs)
    simp only [findInIter, hx, if_neg Bool.false_ne_true]
    exact ih fun y hy => hl y (List.mem_cons_of_mem x hy)

/-- Claim C1: for every value v, require(Some(v)) = Ok(v); for every type T,
require(None) = Err(NotFoundError::<T>::new()). As a Lean function, require is
pure and total in its Option argument by construction. -/
theorem C1_require_spec :
    (∀ (T : Type u) (v : T), require (some v) = Result.ok v) ∧
    (∀ (T : Type u), require (none : Option T) = Result.err NotFoundError.new) :=
  ⟨fun _ _ => rfl, fun _ => rfl⟩

/-- Claim C2: locate returns Ok of the first element (in traversal order)
satisfying the predicate, and Err(NotFoundError::new()) when no element
matches; in particular locate([1,2,3], even) = Ok(2) and
locate([1,3,5], even) = Err(NotFoundError::new()). -/
theorem C2_locate_spec :
    (∀ (T : Type u) (l₁ l₂ : List T) (v : T) (f : T → Bool),
        f v = true → (∀ x ∈ l₁, f x = false) →
        locate (l₁ ++ v :: l₂) f = Result.ok v) ∧
    (∀ (T : Type u) (l : List T) (f : T → Bool),
        (∀ x ∈ l, f x = false) → locate l f = Result.err NotFoundError.new) ∧
    locate [1, 2, 3] (fun x => x % 2 == 0) = Result.ok 2 ∧
    locate [1, 3, 5] (fun x => x % 2 == 0) = Result.err NotFoundError.new := by
  refine ⟨?_, ?_, rfl, rfl⟩
  · intro T l₁ l₂ v f hv hl
    unfold locate
    rw [findInIter_first_match f l₁ l₂ v hv hl]
    rfl
  · intro T l f hl
    unfold locate
    rw [findInIter_no_match f l hl]
    rfl

/-- Witness for C2: applying the first-match case at the concrete list
[1, 2, 3] split as [1] ++ 2 :: [3] with the evenness predicate. -/
theorem C2_locate_spec_witness :
    locate ([1] ++ 2 :: [3]) (fun x => x % 2 == 0) = Result.ok 2 :=
  C2_locate_spec.1 Nat [1] [3] 2 (fun x => x % 2 == 0) (by decide) (by decide)

/-- Claim C3: the .require() method on Option returns exactly the same result
as the free function require, on every Option value (both Some and None). -/
theorem C3_method_agrees_with_free :
    ∀ (T : Type u) (opt : Option T), Option.require opt = require opt :=
  fun _ _ => rfl

/-- Claim C4: for every tag B and element type T,
Some(x).ok_or_not_found::<B>() = Ok(x) and
None.ok_or_not_found::<B>() = Err(NotFoundError::<B>::new()); the error is
tagged with the caller-chosen B rather than with T. -/
theorem C4_ok_or_not_found_spec :
    (∀ (T : Type u) (B : Type v) (x : T),
        Option.ok_or_not_found B (some x) = Result.ok x) ∧
    (∀ (T : Type u) (B : Type v),
        Option.ok_or_not_found B (none : Option T) =
          Result.err (NotFoundError.new : NotFoundError B)) :=
  ⟨fun _ _ _ => rfl, fun _ _ => rfl⟩

/-- Claim C5: any two values of NotFoundError<T> are equal, the (trivially
total) ordering compares any two values as equal, and hashing from any
hasher state gives the same value for any two values. -/
theorem C5_unit_error_invariants :
    (∀ (T : Type u) (a b : NotFoundError T), a = b) ∧
    (∀ (T : Type u) (a b : NotFoundError T), NotFoundError.cmp a b = Ordering.eq) ∧
    (∀ (T : Type u) (state : Nat) (a b : NotFoundError T),
        NotFoundError.hashInto state a = NotFoundError.hashInto state b) :=
  ⟨fun _ a b => match a, b with | ⟨⟨⟩⟩, ⟨⟨⟩⟩ => rfl,
   fun _ _ _ => rfl,
   fun _ _ _ _ => rfl⟩

/-- Claim C6: the display of NotFoundError<T> is exactly the type name of T
followed by " not found"; at the 32-bit integer type (type name "i32",
modelled by Int) the string is exactly "i32 not found". -/
theorem C6_display_spec :
    (∀ (T : Type u) (type_name_T : String) (e : NotFoundError T),
        NotFoundError.display type_name_T e = type_name_T ++ " not found") ∧
    NotFoundError.display "i32" (NotFoundError.new : NotFoundError Int) = "i32 not found" :=
  ⟨fun _ _ _ => rfl, rfl⟩

/-- Claim C7: NotFoundError::<T>::result::<ErrOut>() always returns the Err
variant, carrying a freshly constructed NotFoundError::<T>::new() converted
into ErrOut; it never returns Ok. -/
theorem C7_result_always_err :
    ∀ (T : Type u) (ErrOut : Type v) (from_fn : NotFoundError T → ErrOut),
      NotFoundError.result from_fn = Result.err (from_fn NotFoundError.new) ∧
      ∀ v : T, NotFoundError.result from_fn ≠ Result.ok v :=
  fun _ _ _ => ⟨rfl, fun _ h => Result.noConfusion h⟩

/-- Witness for C7 at T = Nat, ErrOut = NotFoundError Nat with the identity
conversion: the result is the Err variant carrying NotFoundError.new. -/
theorem C7_result_always_err_witness :
    NotFoundError.result (fun e : NotFoundError Nat => e) =
      Result.err ((fun e : NotFoundError Nat => e) NotFoundError.new) :=
  (C7_result_always_err Nat (NotFoundError Nat) (fun e => e)).1

/-- Claim C8: require (free function and method) is deterministic and
stateless: structurally identical inputs yield structurally identical
outputs. -/
theorem C8_deterministic :
    ∀ (T : Type u) (o₁ o₂ : Option T), o₁ = o₂ →
      require o₁ = require o₂ ∧ Option.require o₁ = Option.require o₂ :=
  fun _ _ _ h => ⟨congrArg require h, congrArg Option.require h⟩

/-- Witness for C8 at the concrete input Some 5. -/
theorem C8_deterministic_witness :
    require (some 5) = require (some 5) ∧
      Option.require (some 5) = Option.require (some 5) :=
  C8_deterministic Nat (some 5) (some 5) rfl

/-- Claim C9: the three construction paths Default::default, new and
not_found all produce the same unit error value. -/
theorem C9_constructors_agree :
    ∀ (T : Type u),
      (NotFoundError.default : NotFoundError T) = NotFoundError.new ∧
      (NotFoundError.new : NotFoundError T) = not_found T :=
  fun _ => ⟨rfl, rfl⟩

/-- Claim C10: with the caller-chosen tag B instantiated to the element type T
itself, opt.ok_or_not_found::<T>() returns exactly the same result as
opt.require(), for every opt. -/
theorem C10_ok_or_not_found_self_tag :
    ∀ (T : Type u) (opt : Option T), Option.ok_or_not_found T opt = Option.require opt :=
  fun _ _ => rfl
